import Mathlib

/-!
Verification of the hybrid StorageService (Supabase cloud tier with
localStorage fallback) of the ERICAINFLv2 repository.

The service is shallowly embedded: localStorage is an association list
from string keys to stored values, the module-level `isCloudDisabled`
circuit-breaker flag is a boolean in the state, and every remote
(Supabase) interaction is parameterised by the response the remote tier
would give if called.  Each operation additionally reports how many
remote requests it issued and how many localStorage write attempts it
made, so that claims about "zero remote calls" and "exactly one retry"
can be stated directly.

Stored localStorage values are JSON text.  The code only ever writes the
canonical JSON encodings of its two record shapes (a matchup `CacheItem`
and a `ScheduleCache`), so a stored value is modelled as one of those two
shapes or as unparsable junk text; `JSON.parse` succeeds exactly on the
two record shapes and throws on junk.
-/

/-- JSON values, used for the opaque payload parts (analysis data,
grounding sources, schedule games). -/
inductive Json where
  | null : Json
  | bool (b : Bool) : Json
  | num (n : Int) : Json
  | str (s : String) : Json
  | arr (elems : List Json) : Json
  | obj (fields : List (String × Json)) : Json

/-- Escape of one character inside a JSON string literal (quote and
backslash are escaped; the model keeps other characters verbatim). -/
def escChar (c : Char) : String :=
  if c = '\x22' ∨ c = '\\' then "\\" ++ String.singleton c else String.singleton c

/-- Escape of a whole string for embedding in JSON text. -/
def escapeStr (s : String) : String :=
  String.join (s.toList.map escChar)

mutual

/-- Rendering of a JSON value to text, modelling `JSON.stringify`. -/
def Json.render : Json → String
  | .null => "null"
  | .bool true => "true"
  | .bool false => "false"
  | .num n => toString n
  | .str s => "\x22" ++ escapeStr s ++ "\x22"
  | .arr es => "[" ++ Json.renderArr es ++ "]"
  | .obj fs => "\x7b" ++ Json.renderObj fs ++ "\x7d"

/-- Comma-separated rendering of a JSON array body. -/
def Json.renderArr : List Json → String
  | [] => ""
  | [e] => Json.render e
  | e :: e' :: es => Json.render e ++ "," ++ Json.renderArr (e' :: es)

/-- Comma-separated rendering of a JSON object body. -/
def Json.renderObj : List (String × Json) → String
  | [] => ""
  | [(k, v)] => "\x22" ++ escapeStr k ++ "\x22:" ++ Json.render v
  | (k, v) :: f :: fs =>
      "\x22" ++ escapeStr k ++ "\x22:" ++ Json.render v ++ "," ++ Json.renderObj (f :: fs)

end

/-- `CachedMatchup` from the source: analysis data (possibly null),
grounding sources, and the raw model text. -/
structure CachedMatchup where
  data : Option Json
  sources : List Json
  rawText : String

/-- Canonical JSON text of a `CachedMatchup` (insertion order of the
object literal in the source). -/
def CachedMatchup.render (m : CachedMatchup) : String :=
  "\x7b\x22data\x22:" ++ (match m.data with | some j => j.render | none => "null")
    ++ ",\x22sources\x22:[" ++ Json.renderArr m.sources ++ "]"
    ++ ",\x22rawText\x22:\x22" ++ escapeStr m.rawText ++ "\x22\x7d"

/-- A value stored in localStorage: the canonical encoding of a matchup
`CacheItem` (timestamp + payload), the canonical encoding of a
`ScheduleCache` (week + games + timestamp), or text that is not valid
JSON. -/
inductive LSVal where
  | matchupItem (timestamp : Int) (payload : CachedMatchup) : LSVal
  | schedItem (week : String) (games : List Json) (timestamp : Int) : LSVal
  | junk (s : String) : LSVal

/-- The stored JSON text of a localStorage value (used for
`item.length` in `getCacheStats`). -/
def LSVal.text : LSVal → String
  | .matchupItem t p =>
      "\x7b\x22timestamp\x22:" ++ toString t ++ ",\x22payload\x22:" ++ p.render ++ "\x7d"
  | .schedItem w g t =>
      "\x7b\x22week\x22:\x22" ++ escapeStr w ++ "\x22,\x22games\x22:[" ++ Json.renderArr g
        ++ "],\x22timestamp\x22:" ++ toString t ++ "\x7d"
  | .junk s => s

/-- The localStorage tier: keys to stored values, in enumeration order
(the order `localStorage.key(i)` visits them). -/
abbrev LocalTier := List (String × LSVal)

/-- `localStorage.getItem`. -/
def lsGet (l : LocalTier) (k : String) : Option LSVal :=
  match l.find? (fun p => p.1 == k) with
  | some p => some p.2
  | none => none

/-- A successful `localStorage.setItem`: replaces in place if the key
exists, appends otherwise. -/
def lsSet : LocalTier → String → LSVal → LocalTier
  | [], k, v => [(k, v)]
  | (k', v') :: rest, k, v =>
      if k' == k then (k, v) :: rest else (k', v') :: lsSet rest k v

/-- `localStorage.removeItem`. -/
def lsRemove (l : LocalTier) (k : String) : LocalTier :=
  l.filter (fun p => !(p.1 == k))

/-- The matchup cache key namespace, `CACHE_PREFIX` in the source. -/
def cachePre : String := "eric_ai_cache_v1_"

/-- The schedule cache key namespace, `SCHEDULE_CACHE_PREFIX` in the
source. -/
def schedulePre : String := "eric_ai_schedule_v1_"

/-- `CACHE_EXPIRY_MS`: 24 hours. -/
def CACHE_EXPIRY_MS : Int := 1000 * 60 * 60 * 24

/-- `SCHEDULE_EXPIRY_MS`: 6 hours. -/
def SCHEDULE_EXPIRY_MS : Int := 1000 * 60 * 60 * 6

/-- `key.replace(pre, '')` for a key that starts with `pre`: drops the
leading occurrence. -/
def stripLead (s pre : String) : String := s.drop pre.length

/-- Whether `pat` occurs as a prefix of a character list. -/
def isPreOf : List Char → List Char → Bool
  | [], _ => true
  | _ :: _, [] => false
  | p :: ps, c :: cs => p == c && isPreOf ps cs

/-- Whether `pat` occurs somewhere inside a character list. -/
def hasSub : List Char → List Char → Bool
  | [], pat => pat.isEmpty
  | c :: cs, pat => isPreOf pat (c :: cs) || hasSub cs pat

/-- JavaScript `s.includes(pat)`. -/
def strIncludes (s pat : String) : Bool := hasSub s.toList pat.toList

/-- The circuit-opening error classification used at every remote call
site: `error.message.includes('permission') ||
error.message.includes('connection')`. -/
def circuitPattern (msg : String) : Bool :=
  strIncludes msg "permission" || strIncludes msg "connection"

/-- A structured Supabase error (`{ message, code }`). -/
structure SbError where
  message : String
  code : String

/-- Outcome of a remote upsert (`saveMatchup` / `saveSchedule` /
`verifyConnection` probe): resolved without error, resolved with a
structured error, or rejected with an exception. -/
inductive UpsertResp where
  | ok : UpsertResp
  | err (e : SbError) : UpsertResp
  | thrown (msg : String) : UpsertResp

/-- Outcome of a remote select: a row (or row set) of type `ρ`, a null
data field with no error, a structured error, or an exception. -/
inductive SelectResp (ρ : Type) where
  | ok (row : ρ) : SelectResp ρ
  | okNone : SelectResp ρ
  | err (e : SbError) : SelectResp ρ
  | thrown (msg : String) : SelectResp ρ

/-- A row of the remote `matchups` table as `getMatchup` reads it. -/
structure MatchupRow where
  timestamp : Int
  data : Option Json
  sources : Option (List Json)
  raw_text : Option String

/-- A row of the remote `schedules` table as `getSchedule` reads it. -/
structure ScheduleRow where
  timestamp : Int
  games : List Json

/-- The mutable state of the storage module: the localStorage contents
and the `isCloudDisabled` circuit-breaker flag. -/
structure St where
  locals : LocalTier
  cloudDisabled : Bool

/-- Result of running one storage operation: the returned value, the
new state, the number of remote-tier requests issued, and the number of
`localStorage.setItem` attempts made. -/
structure OpOut (α : Type) where
  ret : α
  st : St
  remoteCalls : Nat
  localWrites : Nat

/-- `StorageService.isCloudActive`: Supabase is configured and has not
been circuit-broken. -/
def isCloudActive (sb : Bool) (st : St) : Bool := sb && !st.cloudDisabled

/-- `StorageService.verifyConnection`: probes the `matchups` table; a
successful probe closes the circuit, any failure (or a missing Supabase
client) opens it and returns false. -/
def verifyConnection (sb : Bool) (probe : UpsertResp) (st : St) : Bool × St :=
  if !sb then (false, { st with cloudDisabled := true })
  else
    match probe with
    | .ok => (true, { st with cloudDisabled := false })
    | .err _ => (false, { st with cloudDisabled := true })
    | .thrown _ => (false, { st with cloudDisabled := true })

/-- The eviction timestamp `pruneCache` associates to a stored value:
`item.timestamp || 0` after `JSON.parse`, with unparsable content
caught and recorded as timestamp 0. -/
def pruneTs : LSVal → Int
  | .matchupItem t _ => t
  | .schedItem _ _ t => t
  | .junk _ => 0

/-- Stable sort by ascending timestamp, modelling JavaScript
`Array.prototype.sort` with comparator `a.timestamp - b.timestamp`
(`Array.prototype.sort` is specified stable; stable insertion sort
computes the same list). -/
def sortTs (l : List (String × Int)) : List (String × Int) :=
  l.insertionSort (fun a b => a.2 ≤ b.2)

/-- The `(key, timestamp)` list `pruneCache` collects: all
matchup-prefixed localStorage entries in enumeration order. -/
def pruneItems (l : LocalTier) : List (String × Int) :=
  (l.filter (fun p => p.1.startsWith cachePre)).map (fun p => (p.1, pruneTs p.2))

/-- `StorageService.pruneCache`: collects matchup-prefixed entries with
their timestamps, sorts ascending, and removes the first 5. -/
def pruneCache (l : LocalTier) : LocalTier :=
  ((sortTs (pruneItems l)).take 5).foldl (fun acc it => lsRemove acc it.1) l

/-- Names that the quota check in `saveMatchup` recognises:
`QuotaExceededError` and `NS_ERROR_DOM_QUOTA_REACHED`. -/
def isQuotaName (name : String) : Bool :=
  name == "QuotaExceededError" || name == "NS_ERROR_DOM_QUOTA_REACHED"

/-- The localStorage fallback phase of `saveMatchup` (step 2 of the
source): attempt the write; on a quota-named exception prune the cache
and retry exactly once, swallowing a failure of the retry; on any other
exception the catch block matches nothing and the exception is
swallowed.  `w1` and `w2` are the exception names (if any) raised by
the first and second `setItem` attempt. -/
def saveMatchupLocal (gameId : String) (data : CachedMatchup) (now : Int)
    (w1 w2 : Option String) (st : St) (rc : Nat) : OpOut Unit :=
  let key := cachePre ++ gameId
  let v := LSVal.matchupItem now data
  match w1 with
  | none => ⟨(), { st with locals := lsSet st.locals key v }, rc, 1⟩
  | some name =>
      if isQuotaName name then
        let pruned := pruneCache st.locals
        match w2 with
        | none => ⟨(), { st with locals := lsSet pruned key v }, rc, 2⟩
        | some _ => ⟨(), { st with locals := pruned }, rc, 2⟩
      else ⟨(), st, rc, 1⟩

/-- `StorageService.saveMatchup`: when the circuit is closed, upsert to
the remote `matchups` table and return on success; a structured error
opens the circuit when its message matches the permission/connection
patterns, an exception always opens it, and both fall through to the
localStorage phase. -/
def saveMatchup (sb : Bool) (gameId : String) (data : CachedMatchup) (now : Int)
    (remote : UpsertResp) (w1 w2 : Option String) (st : St) : OpOut Unit :=
  if sb && !st.cloudDisabled then
    match remote with
    | .ok => ⟨(), st, 1, 0⟩
    | .err e =>
        let st' := if circuitPattern e.message then { st with cloudDisabled := true } else st
        saveMatchupLocal gameId data now w1 w2 st' 1
    | .thrown _ =>
        saveMatchupLocal gameId data now w1 w2 { st with cloudDisabled := true } 1
  else
    saveMatchupLocal gameId data now w1 w2 st 0

/-- `JSON.parse` of a localStorage matchup entry followed by the
`CacheItem` field reads: junk throws; both record shapes parse with
their `timestamp` field, and `item.payload` is present only on the
matchup shape (it reads as absent on a schedule-shaped value). -/
def parseMatchupItem : LSVal → Option (Int × Option CachedMatchup)
  | .matchupItem t p => some (t, some p)
  | .schedItem _ _ t => some (t, none)
  | .junk _ => none

/-- The localStorage fallback phase of `getMatchup` (step 2 of the
source): missing or unparsable entries give null without mutation; a
parsed entry is returned when fresh and removed (returning null) when
not. -/
def getMatchupLocal (gameId : String) (now : Int) (st : St) (rc : Nat) :
    OpOut (Option CachedMatchup) :=
  let key := cachePre ++ gameId
  match lsGet st.locals key with
  | none => ⟨none, st, rc, 0⟩
  | some v =>
      match parseMatchupItem v with
      | none => ⟨none, st, rc, 0⟩
      | some (t, pl) =>
          if now - t < CACHE_EXPIRY_MS then ⟨pl, st, rc, 0⟩
          else ⟨none, { st with locals := lsRemove st.locals key }, rc, 0⟩

/-- `StorageService.getMatchup`: when the circuit is closed, select the
row by id; a fresh row is returned (with `sources || []` and
`raw_text || ''` defaults), an expired or missing row falls through to
localStorage, a structured error with code `PGRST116` is treated as
not-found, any other structured error opens the circuit when its
message matches the patterns, and an exception always opens it. -/
def getMatchup (sb : Bool) (gameId : String) (now : Int)
    (remote : SelectResp MatchupRow) (st : St) : OpOut (Option CachedMatchup) :=
  if sb && !st.cloudDisabled then
    match remote with
    | .ok row =>
        if now - row.timestamp < CACHE_EXPIRY_MS then
          ⟨some ⟨row.data, row.sources.getD [], row.raw_text.getD ""⟩, st, 1, 0⟩
        else getMatchupLocal gameId now st 1
    | .okNone => getMatchupLocal gameId now st 1
    | .err e =>
        if e.code == "PGRST116" then getMatchupLocal gameId now st 1
        else
          let st' := if circuitPattern e.message then { st with cloudDisabled := true } else st
          getMatchupLocal gameId now st' 1
    | .thrown _ => getMatchupLocal gameId now { st with cloudDisabled := true } 1
  else getMatchupLocal gameId now st 0

/-- The game ids of the matchup-prefixed localStorage keys, in
enumeration order. -/
def localMatchupIds (l : LocalTier) : List String :=
  (l.filter (fun p => p.1.startsWith cachePre)).map (fun p => stripLead p.1 cachePre)

/-- `Set.add`: append the id unless it is already present. -/
def addId (acc : List String) (x : String) : List String :=
  if acc.contains x then acc else acc ++ [x]

/-- `StorageService.getCachedGameIds`: the set of local matchup ids,
plus every remote `matchups` row id when the circuit is closed and the
enumeration succeeds; a failed enumeration still returns the local-only
set, opening the circuit on a pattern-matched error or an exception. -/
def getCachedGameIds (sb : Bool) (remote : SelectResp (List String)) (st : St) :
    OpOut (List String) :=
  let ids := (localMatchupIds st.locals).foldl addId []
  if sb && !st.cloudDisabled then
    match remote with
    | .ok rows => ⟨rows.foldl addId ids, st, 1, 0⟩
    | .okNone => ⟨ids, st, 1, 0⟩
    | .err e =>
        let st' := if circuitPattern e.message then { st with cloudDisabled := true } else st
        ⟨ids, st', 1, 0⟩
    | .thrown _ => ⟨ids, { st with cloudDisabled := true }, 1, 0⟩
  else ⟨ids, st, 0, 0⟩

/-- `StorageService.saveSchedule`: when the circuit is closed, upsert
to the remote `schedules` table (classifying failures exactly as
`saveMatchup` does), then always attempt the localStorage write; a
failing local write is only logged — no pruning, no retry, no
exception. -/
def saveSchedule (sb : Bool) (week : String) (games : List Json) (now : Int)
    (remote : UpsertResp) (w : Option String) (st : St) : OpOut Unit :=
  let key := schedulePre ++ week
  let after :=
    if sb && !st.cloudDisabled then
      match remote with
      | .ok => (st, 1)
      | .err e =>
          (if circuitPattern e.message then { st with cloudDisabled := true } else st, 1)
      | .thrown _ => ({ st with cloudDisabled := true }, 1)
    else (st, 0)
  match w with
  | none =>
      ⟨(), { after.1 with locals := lsSet after.1.locals key (LSVal.schedItem week games now) },
        after.2, 1⟩
  | some _ => ⟨(), after.1, after.2, 1⟩

/-- `JSON.parse` of a localStorage schedule entry followed by the
`ScheduleCache` field reads: junk throws; both record shapes parse with
their `timestamp` field, and `cache.games` is present only on the
schedule shape. -/
def parseSchedItem : LSVal → Option (Int × Option (List Json))
  | .schedItem _ g t => some (t, some g)
  | .matchupItem t _ => some (t, none)
  | .junk _ => none

/-- The localStorage fallback phase of `getSchedule`. -/
def getScheduleLocal (week : String) (now : Int) (st : St) (rc : Nat) :
    OpOut (Option (List Json)) :=
  let key := schedulePre ++ week
  match lsGet st.locals key with
  | none => ⟨none, st, rc, 0⟩
  | some v =>
      match parseSchedItem v with
      | none => ⟨none, st, rc, 0⟩
      | some (t, g) =>
          if now - t < SCHEDULE_EXPIRY_MS then ⟨g, st, rc, 0⟩
          else ⟨none, { st with locals := lsRemove st.locals key }, rc, 0⟩

/-- `StorageService.getSchedule`: the schedule twin of `getMatchup`,
with the 6-hour TTL and the `schedules` table. -/
def getSchedule (sb : Bool) (week : String) (now : Int)
    (remote : SelectResp ScheduleRow) (st : St) : OpOut (Option (List Json)) :=
  if sb && !st.cloudDisabled then
    match remote with
    | .ok row =>
        if now - row.timestamp < SCHEDULE_EXPIRY_MS then ⟨some row.games, st, 1, 0⟩
        else getScheduleLocal week now st 1
    | .okNone => getScheduleLocal week now st 1
    | .err e =>
        if e.code == "PGRST116" then getScheduleLocal week now st 1
        else
          let st' := if circuitPattern e.message then { st with cloudDisabled := true } else st
          getScheduleLocal week now st' 1
    | .thrown _ => getScheduleLocal week now { st with cloudDisabled := true } 1
  else getScheduleLocal week now st 0

/-- The record returned by `getCacheStats`. -/
structure CacheStats where
  totalGames : Nat
  totalSchedules : Nat
  isCloudConnected : Bool
  localStorageSize : Nat

/-- Sum of the stored-text lengths of the matchup-prefixed localStorage
entries (the `localStorageSize` accumulator). -/
def localMatchupSize (l : LocalTier) : Nat :=
  ((l.filter (fun p => p.1.startsWith cachePre)).map (fun p => p.2.text.length)).sum

/-- Number of schedule-prefixed localStorage keys (the
`totalSchedules` accumulator). -/
def localScheduleCount (l : LocalTier) : Nat :=
  (l.filter (fun p => p.1.startsWith schedulePre)).length

/-- `StorageService.getCacheStats`: counts local matchup ids and their
stored sizes, counts local schedule keys, best-effort counts remote
rows (0 when the circuit is open, the data is null, the query errors,
or it throws — failures here are swallowed silently and never touch the
circuit), and reports `totalGames` as the max of the local and remote
counts. -/
def getCacheStats (sb : Bool) (remote : SelectResp (List String)) (st : St) :
    OpOut CacheStats :=
  let ids := (localMatchupIds st.locals).foldl addId []
  let cloudAttempt := sb && !st.cloudDisabled
  let cloudGameCount : Nat :=
    if cloudAttempt then
      match remote with
      | .ok rows => rows.length
      | .okNone => 0
      | .err _ => 0
      | .thrown _ => 0
    else 0
  ⟨⟨max ids.length cloudGameCount, localScheduleCount st.locals,
      sb && !st.cloudDisabled, localMatchupSize st.locals⟩,
    st, if cloudAttempt then 1 else 0, 0⟩

/-- One invocation of a storage operation other than
`verifyConnection` (and the pure read `isCloudActive`), bundling its
arguments and the responses its environment would give. -/
inductive Op where
  | saveM (gameId : String) (data : CachedMatchup) (now : Int)
      (remote : UpsertResp) (w1 w2 : Option String) : Op
  | getM (gameId : String) (now : Int) (remote : SelectResp MatchupRow) : Op
  | listIds (remote : SelectResp (List String)) : Op
  | saveS (week : String) (games : List Json) (now : Int)
      (remote : UpsertResp) (w : Option String) : Op
  | getS (week : String) (now : Int) (remote : SelectResp ScheduleRow) : Op
  | stats (remote : SelectResp (List String)) : Op
  | prune : Op

/-- Dispatch of one operation, keeping the new state and the number of
remote requests it issued. -/
def runOp (sb : Bool) : Op → St → St × Nat
  | .saveM g d n r w1 w2, st =>
      let o := saveMatchup sb g d n r w1 w2 st; (o.st, o.remoteCalls)
  | .getM g n r, st => let o := getMatchup sb g n r st; (o.st, o.remoteCalls)
  | .listIds r, st => let o := getCachedGameIds sb r st; (o.st, o.remoteCalls)
  | .saveS w g n r wr, st => let o := saveSchedule sb w g n r wr st; (o.st, o.remoteCalls)
  | .getS w n r, st => let o := getSchedule sb w n r st; (o.st, o.remoteCalls)
  | .stats r, st => let o := getCacheStats sb r st; (o.st, o.remoteCalls)
  | .prune, st => ({ st with locals := pruneCache st.locals }, 0)

/-- A sequence of operations, accumulating the total number of remote
requests issued. -/
def runOps (sb : Bool) : List Op → St → St × Nat
  | [], st => (st, 0)
  | op :: ops, st =>
      let r := runOp sb op st
      let rest := runOps sb ops r.1
      (rest.1, r.2 + rest.2)

theorem lsGet_lsSet_self (l : LocalTier) (k : String) (v : LSVal) :
    lsGet (lsSet l k v) k = some v := by
  induction l with
  | nil => simp [lsSet, lsGet]
  | cons p rest ih =>
      obtain ⟨k', v'⟩ := p
      by_cases h : k' == k
      · simp [lsSet, h, lsGet]
      · simp only [lsSet, h, if_neg, Bool.false_eq_true, not_false_eq_true]
        simpa [lsGet, h] using ih

theorem saveMatchupLocal_cloud (g : String) (d : CachedMatchup) (n : Int)
    (w1 w2 : Option String) (st : St) (rc : Nat) :
    (saveMatchupLocal g d n w1 w2 st rc).st.cloudDisabled = st.cloudDisabled := by
  cases w1 with
  | none => rfl
  | some name =>
      by_cases h : isQuotaName name
      · cases w2 <;> simp [saveMatchupLocal, h]
      · simp [saveMatchupLocal, h]

theorem saveMatchupLocal_rc (g : String) (d : CachedMatchup) (n : Int)
    (w1 w2 : Option String) (st : St) (rc : Nat) :
    (saveMatchupLocal g d n w1 w2 st rc).remoteCalls = rc := by
  cases w1 with
  | none => rfl
  | some name =>
      by_cases h : isQuotaName name
      · cases w2 <;> simp [saveMatchupLocal, h]
      · simp [saveMatchupLocal, h]

theorem getMatchupLocal_cloud (g : String) (n : Int) (st : St) (rc : Nat) :
    (getMatchupLocal g n st rc).st.cloudDisabled = st.cloudDisabled := by
  cases hl : lsGet st.locals (cachePre ++ g) with
  | none => simp [getMatchupLocal, hl]
  | some v =>
      cases hp : parseMatchupItem v with
      | none => simp [getMatchupLocal, hl, hp]
      | some tp =>
          obtain ⟨t, pl⟩ := tp
          by_cases hf : n - t < CACHE_EXPIRY_MS <;> simp [getMatchupLocal, hl, hp, hf]

theorem getMatchupLocal_rc (g : String) (n : Int) (st : St) (rc : Nat) :
    (getMatchupLocal g n st rc).remoteCalls = rc := by
  cases hl : lsGet st.locals (cachePre ++ g) with
  | none => simp [getMatchupLocal, hl]
  | some v =>
      cases hp : parseMatchupItem v with
      | none => simp [getMatchupLocal, hl, hp]
      | some tp =>
          obtain ⟨t, pl⟩ := tp
          by_cases hf : n - t < CACHE_EXPIRY_MS <;> simp [getMatchupLocal, hl, hp, hf]

theorem getScheduleLocal_cloud (w : String) (n : Int) (st : St) (rc : Nat) :
    (getScheduleLocal w n st rc).st.cloudDisabled = st.cloudDisabled := by
  cases hl : lsGet st.locals (schedulePre ++ w) with
  | none => simp [getScheduleLocal, hl]
  | some v =>
      cases hp : parseSchedItem v with
      | none => simp [getScheduleLocal, hl, hp]
      | some tp =>
          obtain ⟨t, gg⟩ := tp
          by_cases hf : n - t < SCHEDULE_EXPIRY_MS <;> simp [getScheduleLocal, hl, hp, hf]

theorem getScheduleLocal_rc (w : String) (n : Int) (st : St) (rc : Nat) :
    (getScheduleLocal w n st rc).remoteCalls = rc := by
  cases hl : lsGet st.locals (schedulePre ++ w) with
  | none => simp [getScheduleLocal, hl]
  | some v =>
      cases hp : parseSchedItem v with
      | none => simp [getScheduleLocal, hl, hp]
      | some tp =>
          obtain ⟨t, gg⟩ := tp
          by_cases hf : n - t < SCHEDULE_EXPIRY_MS <;> simp [getScheduleLocal, hl, hp, hf]

/-- With the circuit open, every non-probe operation leaves the flag
set and issues no remote request. -/
theorem runOp_disabled (sb : Bool) (op : Op) (st : St) (h : st.cloudDisabled = true) :
    (runOp sb op st).1.cloudDisabled = true ∧ (runOp sb op st).2 = 0 := by
  cases op with
  | saveM g d n r w1 w2 =>
      simp [runOp, saveMatchup, h, saveMatchupLocal_cloud, saveMatchupLocal_rc]
  | getM g n r =>
      simp [runOp, getMatchup, h, getMatchupLocal_cloud, getMatchupLocal_rc]
  | listIds r => simp [runOp, getCachedGameIds, h]
  | saveS w g n r wr =>
      cases wr <;> simp [runOp, saveSchedule, h]
  | getS w n r =>
      simp [runOp, getSchedule, h, getScheduleLocal_cloud, getScheduleLocal_rc]
  | stats r => simp [runOp, getCacheStats, h]
  | prune => simpa [runOp] using h

/-- With the circuit open, a whole sequence of non-probe operations
issues no remote request and leaves the flag set. -/
theorem runOps_disabled (sb : Bool) (ops : List Op) (st : St) (h : st.cloudDisabled = true) :
    (runOps sb ops st).1.cloudDisabled = true ∧ (runOps sb ops st).2 = 0 := by
  induction ops generalizing st with
  | nil => exact ⟨h, rfl⟩
  | cons op ops ih =>
      have h1 := runOp_disabled sb op st h
      have h2 := ih (runOp sb op st).1 h1.1
      simp [runOps, h1.2, h2.1, h2.2]

theorem mem_addId (acc : List String) (y x : String) :
    x ∈ addId acc y ↔ x ∈ acc ∨ x = y := by
  by_cases hy : y ∈ acc
  · simp only [addId]
    rw [if_pos (by simpa using hy)]
    constructor
    · exact Or.inl
    · rintro (hx | rfl)
      · exact hx
      · exact hy
  · simp only [addId]
    rw [if_neg (by simpa using hy)]
    simp

theorem nodup_addId (acc : List String) (y : String) (h : acc.Nodup) :
    (addId acc y).Nodup := by
  by_cases hy : y ∈ acc
  · simp only [addId]
    rw [if_pos (by simpa using hy)]
    exact h
  · simp only [addId]
    rw [if_neg (by simpa using hy)]
    simp [List.nodup_append, h, hy]

theorem mem_foldl_addId (xs : List String) (acc : List String) (x : String) :
    x ∈ xs.foldl addId acc ↔ x ∈ acc ∨ x ∈ xs := by
  induction xs generalizing acc with
  | nil => simp
  | cons y ys ih =>
      simp only [List.foldl_cons, ih, mem_addId, List.mem_cons]
      tauto

theorem nodup_foldl_addId (xs : List String) (acc : List String) (h : acc.Nodup) :
    (xs.foldl addId acc).Nodup := by
  induction xs generalizing acc with
  | nil => exact h
  | cons y ys ih => exact ih (addId acc y) (nodup_addId acc y h)

theorem foldl_lsRemove_eq_filter (ks : List (String × Int)) (l : LocalTier) :
    ks.foldl (fun acc it => lsRemove acc it.1) l
      = l.filter (fun p => ks.all (fun it => !(p.1 == it.1))) := by
  induction ks generalizing l with
  | nil => simp
  | cons k ks ih =>
      rw [List.foldl_cons, ih (lsRemove l k.1)]
      simp only [lsRemove, List.filter_filter, List.all_cons]
      congr 1
      funext p
      rw [Bool.and_comm]

theorem sortTs_perm (l : List (String × Int)) : (sortTs l).Perm l := by
  unfold sortTs
  exact List.perm_insertionSort _ l

theorem sortTs_length (l : List (String × Int)) : (sortTs l).length = l.length :=
  (sortTs_perm l).length_eq

theorem sortTs_sorted (l : List (String × Int)) :
    (sortTs l).Pairwise (fun a b => a.2 ≤ b.2) := by
  have h1 : IsTotal (String × Int) (fun a b => a.2 ≤ b.2) := ⟨fun a b => le_total a.2 b.2⟩
  have h2 : IsTrans (String × Int) (fun a b => a.2 ≤ b.2) := ⟨fun _ _ _ ha hb => le_trans ha hb⟩
  unfold sortTs
  exact List.sorted_insertionSort _ l

/-- Every element of the first 5 of the sorted eviction list has a
timestamp no larger than any element left after them. -/
theorem sortTs_take_le_drop (l : List (String × Int)) :
    ∀ a ∈ (sortTs l).take 5, ∀ b ∈ (sortTs l).drop 5, a.2 ≤ b.2 := by
  have hp := sortTs_sorted l
  rw [← List.take_append_drop 5 (sortTs l)] at hp
  exact (List.pairwise_append.mp hp).2.2

/-- Claim C1: with the circuit open (remote tier disabled or
unconfigured) and the local tier accepting the write (no storage
exception on `setItem`), `saveMatchup` followed by `getMatchup` for the
same game id within 24 hours returns the saved payload unchanged, and
neither call issues a remote-tier request. -/
theorem C1_roundtrip_local (sb : Bool) (st : St) (gameId : String)
    (p : CachedMatchup) (t1 t2 : Int) (r1 : UpsertResp) (r2 : SelectResp MatchupRow)
    (w2 : Option String)
    (hopen : (sb && !st.cloudDisabled) = false)
    (ht : t2 - t1 < CACHE_EXPIRY_MS) :
    (saveMatchup sb gameId p t1 r1 none w2 st).remoteCalls = 0 ∧
    (getMatchup sb gameId t2 r2 (saveMatchup sb gameId p t1 r1 none w2 st).st).ret = some p ∧
    (getMatchup sb gameId t2 r2 (saveMatchup sb gameId p t1 r1 none w2 st).st).remoteCalls
      = 0 := by
  have h1 : saveMatchup sb gameId p t1 r1 none w2 st
      = ⟨(), { st with
          locals := lsSet st.locals (cachePre ++ gameId) (LSVal.matchupItem t1 p) }, 0, 1⟩ := by
    simp [saveMatchup, hopen, saveMatchupLocal]
  rw [h1]
  refine ⟨rfl, ?_, ?_⟩ <;>
    simp [getMatchup, hopen, getMatchupLocal, lsGet_lsSet_self, parseMatchupItem, ht]

/-- Witness for C1 at a concrete input. -/
theorem C1_roundtrip_local_witness :
    (saveMatchup false "g1" ⟨none, [], "raw"⟩ 100 .ok none none ⟨[], false⟩).remoteCalls = 0 ∧
    (getMatchup false "g1" 200 .okNone
      (saveMatchup false "g1" ⟨none, [], "raw"⟩ 100 .ok none none ⟨[], false⟩).st).ret
      = some ⟨none, [], "raw"⟩ ∧
    (getMatchup false "g1" 200 .okNone
      (saveMatchup false "g1" ⟨none, [], "raw"⟩ 100 .ok none none ⟨[], false⟩).st).remoteCalls
      = 0 :=
  C1_roundtrip_local false ⟨[], false⟩ "g1" ⟨none, [], "raw"⟩ 100 200 .ok .okNone none
    rfl (by decide)

/-- Claim C2: a remote call of `saveMatchup`, `getMatchup`,
`getCachedGameIds`, `saveSchedule` or `getSchedule` that reports an
error whose message contains `permission` or `connection`, or that
throws, leaves the circuit flag set (so `isCloudActive` is false), and
every subsequent non-probe operation issues zero remote requests while
the flag stays set; a structured `PGRST116` not-found result from the
single-row reads never changes the flag. -/
theorem C2_classified_failure_opens_circuit :
    (∀ (st : St) (g : String) (d : CachedMatchup) (n : Int) (e : SbError)
        (w1 w2 : Option String), st.cloudDisabled = false →
        circuitPattern e.message = true →
        (saveMatchup true g d n (.err e) w1 w2 st).st.cloudDisabled = true) ∧
    (∀ (st : St) (g : String) (d : CachedMatchup) (n : Int) (m : String)
        (w1 w2 : Option String), st.cloudDisabled = false →
        (saveMatchup true g d n (.thrown m) w1 w2 st).st.cloudDisabled = true) ∧
    (∀ (st : St) (g : String) (n : Int) (e : SbError), st.cloudDisabled = false →
        circuitPattern e.message = true → e.code ≠ "PGRST116" →
        (getMatchup true g n (.err e) st).st.cloudDisabled = true) ∧
    (∀ (st : St) (g : String) (n : Int) (m : String), st.cloudDisabled = false →
        (getMatchup true g n (.thrown m) st).st.cloudDisabled = true) ∧
    (∀ (st : St) (e : SbError), st.cloudDisabled = false →
        circuitPattern e.message = true →
        (getCachedGameIds true (.err e) st).st.cloudDisabled = true) ∧
    (∀ (st : St) (m : String), st.cloudDisabled = false →
        (getCachedGameIds true (.thrown m) st).st.cloudDisabled = true) ∧
    (∀ (st : St) (w : String) (g : List Json) (n : Int) (e : SbError)
        (wr : Option String), st.cloudDisabled = false →
        circuitPattern e.message = true →
        (saveSchedule true w g n (.err e) wr st).st.cloudDisabled = true) ∧
    (∀ (st : St) (w : String) (g : List Json) (n : Int) (m : String)
        (wr : Option String), st.cloudDisabled = false →
        (saveSchedule true w g n (.thrown m) wr st).st.cloudDisabled = true) ∧
    (∀ (st : St) (w : String) (n : Int) (e : SbError), st.cloudDisabled = false →
        circuitPattern e.message = true → e.code ≠ "PGRST116" →
        (getSchedule true w n (.err e) st).st.cloudDisabled = true) ∧
    (∀ (st : St) (w : String) (n : Int) (m : String), st.cloudDisabled = false →
        (getSchedule true w n (.thrown m) st).st.cloudDisabled = true) ∧
    (∀ (st : St) (g : String) (n : Int) (e : SbError), e.code = "PGRST116" →
        (getMatchup true g n (.err e) st).st.cloudDisabled = st.cloudDisabled) ∧
    (∀ (st : St) (w : String) (n : Int) (e : SbError), e.code = "PGRST116" →
        (getSchedule true w n (.err e) st).st.cloudDisabled = st.cloudDisabled) ∧
    (∀ (sb : Bool) (st : St), st.cloudDisabled = true → isCloudActive sb st = false) ∧
    (∀ (sb : Bool) (ops : List Op) (st : St), st.cloudDisabled = true →
        (runOps sb ops st).2 = 0 ∧ (runOps sb ops st).1.cloudDisabled = true) := by
  refine ⟨?_, ?_, ?_, ?_, ?_, ?_, ?_, ?_, ?_, ?_, ?_, ?_, ?_, ?_⟩
  · intro st g d n e w1 w2 h0 hpat
    simp [saveMatchup, h0, hpat, saveMatchupLocal_cloud]
  · intro st g d n m w1 w2 h0
    simp [saveMatchup, h0, saveMatchupLocal_cloud]
  · intro st g n e h0 hpat hne
    have hb : (e.code == "PGRST116") = false := by simpa using hne
    simp [getMatchup, h0, hpat, hb, getMatchupLocal_cloud]
  · intro st g n m h0
    simp [getMatchup, h0, getMatchupLocal_cloud]
  · intro st e h0 hpat
    simp [getCachedGameIds, h0, hpat]
  · intro st m h0
    simp [getCachedGameIds, h0]
  · intro st w g n e wr h0 hpat
    cases wr <;> simp [saveSchedule, h0, hpat]
  · intro st w g n m wr h0
    cases wr <;> simp [saveSchedule, h0]
  · intro st w n e h0 hpat hne
    have hb : (e.code == "PGRST116") = false := by simpa using hne
    simp [getSchedule, h0, hpat, hb, getScheduleLocal_cloud]
  · intro st w n m h0
    simp [getSchedule, h0, getScheduleLocal_cloud]
  · intro st g n e hc
    cases h0 : st.cloudDisabled with
    | true => simp [getMatchup, h0, getMatchupLocal_cloud]
    | false =>
        have hb : (e.code == "PGRST116") = true := by simpa using hc
        simp [getMatchup, h0, hb, getMatchupLocal_cloud]
  · intro st w n e hc
    cases h0 : st.cloudDisabled with
    | true => simp [getSchedule, h0, getScheduleLocal_cloud]
    | false =>
        have hb : (e.code == "PGRST116") = true := by simpa using hc
        simp [getSchedule, h0, hb, getScheduleLocal_cloud]
  · intro sb st h
    simp [isCloudActive, h]
  · intro sb ops st h
    exact (runOps_disabled sb ops st h).symm

/-- Witness for C2 at a concrete input: a permission-classified save
error opens the circuit, and a later operation sequence issues no
remote request. -/
theorem C2_classified_failure_opens_circuit_witness :
    (saveMatchup true "g" ⟨none, [], ""⟩ 0 (.err ⟨"permission denied", "42501"⟩)
        none none ⟨[], false⟩).st.cloudDisabled = true ∧
    (runOps true [.listIds .okNone] ⟨[], true⟩).2 = 0 :=
  ⟨C2_classified_failure_opens_circuit.1 ⟨[], false⟩ "g" ⟨none, [], ""⟩ 0
      ⟨"permission denied", "42501"⟩ none none rfl (by decide),
    (C2_classified_failure_opens_circuit.2.2.2.2.2.2.2.2.2.2.2.2.2 true
      [.listIds .okNone] ⟨[], true⟩ rfl).1⟩

/-- Claim C3: every operation other than `verifyConnection` can only
set the circuit flag (never clear it); a successful probe clears the
flag and returns true, while a failed probe (structured error, thrown
exception, or missing client) sets it and returns false. -/
theorem C3_circuit_monotone_probe_only :
    (∀ (sb : Bool) (op : Op) (st : St), st.cloudDisabled = true →
        (runOp sb op st).1.cloudDisabled = true) ∧
    (∀ st : St, verifyConnection true .ok st = (true, ⟨st.locals, false⟩)) ∧
    (∀ (st : St) (e : SbError), verifyConnection true (.err e) st = (false, ⟨st.locals, true⟩)) ∧
    (∀ (st : St) (m : String),
        verifyConnection true (.thrown m) st = (false, ⟨st.locals, true⟩)) ∧
    (∀ (probe : UpsertResp) (st : St),
        verifyConnection false probe st = (false, ⟨st.locals, true⟩)) := by
  refine ⟨?_, ?_, ?_, ?_, ?_⟩
  · intro sb op st h
    exact (runOp_disabled sb op st h).1
  · intro st; rfl
  · intro st e; rfl
  · intro st m; rfl
  · intro probe st; rfl

/-- Witness for C3 at a concrete input. -/
theorem C3_circuit_monotone_probe_only_witness :
    (runOp false .prune ⟨[], true⟩).1.cloudDisabled = true ∧
    verifyConnection true .ok ⟨[], true⟩ = (true, ⟨[], false⟩) :=
  ⟨C3_circuit_monotone_probe_only.1 false .prune ⟨[], true⟩ rfl,
    C3_circuit_monotone_probe_only.2.1 ⟨[], true⟩⟩

/-- Claim C4: an entry stored with timestamp `T` read at time `t` is
returned while `t - T < TTL` (24 h for matchups, 6 h for schedules) and
treated as absent once `t - T ≥ TTL`; an expired local entry is deleted
by the read that found it, while an expired remote row is simply fallen
through to the local tier. -/
theorem C4_ttl_expiry :
    (∀ (sb : Bool) (st : St) (g : String) (p : CachedMatchup) (T t : Int)
        (r : SelectResp MatchupRow), (sb && !st.cloudDisabled) = false →
        lsGet st.locals (cachePre ++ g) = some (.matchupItem T p) →
        t - T < CACHE_EXPIRY_MS →
        (getMatchup sb g t r st).ret = some p ∧ (getMatchup sb g t r st).st = st) ∧
    (∀ (sb : Bool) (st : St) (g : String) (p : CachedMatchup) (T t : Int)
        (r : SelectResp MatchupRow), (sb && !st.cloudDisabled) = false →
        lsGet st.locals (cachePre ++ g) = some (.matchupItem T p) →
        CACHE_EXPIRY_MS ≤ t - T →
        (getMatchup sb g t r st).ret = none ∧
        (getMatchup sb g t r st).st = ⟨lsRemove st.locals (cachePre ++ g), st.cloudDisabled⟩) ∧
    (∀ (st : St) (g : String) (t : Int) (row : MatchupRow), st.cloudDisabled = false →
        t - row.timestamp < CACHE_EXPIRY_MS →
        (getMatchup true g t (.ok row) st).ret
            = some ⟨row.data, row.sources.getD [], row.raw_text.getD ""⟩ ∧
        (getMatchup true g t (.ok row) st).st = st) ∧
    (∀ (st : St) (g : String) (t : Int) (row : MatchupRow), st.cloudDisabled = false →
        CACHE_EXPIRY_MS ≤ t - row.timestamp →
        getMatchup true g t (.ok row) st = getMatchupLocal g t st 1) ∧
    (∀ (sb : Bool) (st : St) (w wk : String) (gs : List Json) (T t : Int)
        (r : SelectResp ScheduleRow), (sb && !st.cloudDisabled) = false →
        lsGet st.locals (schedulePre ++ w) = some (.schedItem wk gs T) →
        t - T < SCHEDULE_EXPIRY_MS →
        (getSchedule sb w t r st).ret = some gs ∧ (getSchedule sb w t r st).st = st) ∧
    (∀ (sb : Bool) (st : St) (w wk : String) (gs : List Json) (T t : Int)
        (r : SelectResp ScheduleRow), (sb && !st.cloudDisabled) = false →
        lsGet st.locals (schedulePre ++ w) = some (.schedItem wk gs T) →
        SCHEDULE_EXPIRY_MS ≤ t - T →
        (getSchedule sb w t r st).ret = none ∧
        (getSchedule sb w t r st).st
            = ⟨lsRemove st.locals (schedulePre ++ w), st.cloudDisabled⟩) ∧
    (∀ (st : St) (w : String) (t : Int) (row : ScheduleRow), st.cloudDisabled = false →
        t - row.timestamp < SCHEDULE_EXPIRY_MS →
        (getSchedule true w t (.ok row) st).ret = some row.games ∧
        (getSchedule true w t (.ok row) st).st = st) ∧
    (∀ (st : St) (w : String) (t : Int) (row : ScheduleRow), st.cloudDisabled = false →
        SCHEDULE_EXPIRY_MS ≤ t - row.timestamp →
        getSchedule true w t (.ok row) st = getScheduleLocal w t st 1) := by
  refine ⟨?_, ?_, ?_, ?_, ?_, ?_, ?_, ?_⟩
  · intro sb st g p T t r hopen hl hf
    constructor <;> simp [getMatchup, hopen, getMatchupLocal, hl, parseMatchupItem, hf]
  · intro sb st g p T t r hopen hl hexp
    have hnf : ¬(t - T < CACHE_EXPIRY_MS) := not_lt.mpr hexp
    constructor <;> simp [getMatchup, hopen, getMatchupLocal, hl, parseMatchupItem, hnf]
  · intro st g t row h0 hf
    constructor <;> simp [getMatchup, h0, hf]
  · intro st g t row h0 hexp
    have hnf : ¬(t - row.timestamp < CACHE_EXPIRY_MS) := not_lt.mpr hexp
    simp [getMatchup, h0, hnf]
  · intro sb st w wk gs T t r hopen hl hf
    constructor <;> simp [getSchedule, hopen, getScheduleLocal, hl, parseSchedItem, hf]
  · intro sb st w wk gs T t r hopen hl hexp
    have hnf : ¬(t - T < SCHEDULE_EXPIRY_MS) := not_lt.mpr hexp
    constructor <;> simp [getSchedule, hopen, getScheduleLocal, hl, parseSchedItem, hnf]
  · intro st w t row h0 hf
    constructor <;> simp [getSchedule, h0, hf]
  · intro st w t row h0 hexp
    have hnf : ¬(t - row.timestamp < SCHEDULE_EXPIRY_MS) := not_lt.mpr hexp
    simp [getSchedule, h0, hnf]

/-- Witness for C4 at a concrete input: an entry stored at time 0 and
read at exactly 24 hours is absent and deleted. -/
theorem C4_ttl_expiry_witness :
    (getMatchup false "g" 86400000 .okNone
        ⟨[(cachePre ++ "g", .matchupItem 0 ⟨none, [], "x"⟩)], false⟩).ret = none ∧
    (getMatchup false "g" 86400000 .okNone
        ⟨[(cachePre ++ "g", .matchupItem 0 ⟨none, [], "x"⟩)], false⟩).st
      = ⟨lsRemove [(cachePre ++ "g", .matchupItem 0 ⟨none, [], "x"⟩)] (cachePre ++ "g"),
          false⟩ :=
  C4_ttl_expiry.2.1 false ⟨[(cachePre ++ "g", .matchupItem 0 ⟨none, [], "x"⟩)], false⟩
    "g" ⟨none, [], "x"⟩ 0 86400000 .okNone rfl (by simp [lsGet]) (by decide)

theorem saveMatchupLocal_writes (g : String) (d : CachedMatchup) (n : Int)
    (w1 w2 : Option String) (st : St) (rc : Nat) :
    1 ≤ (saveMatchupLocal g d n w1 w2 st rc).localWrites := by
  cases w1 with
  | none => simp [saveMatchupLocal]
  | some name =>
      by_cases h : isQuotaName name
      · cases w2 <;> simp [saveMatchupLocal, h]
      · simp [saveMatchupLocal, h]

/-- Claim C5: with the circuit closed and the remote upsert succeeding,
`saveMatchup` returns immediately with the state untouched and no local
write; whenever the remote tier is skipped (circuit open or
unconfigured) or the upsert fails (structured error or exception), the
local write is attempted. -/
theorem C5_save_local_only_on_remote_miss :
    (∀ (st : St) (g : String) (d : CachedMatchup) (n : Int) (w1 w2 : Option String),
        st.cloudDisabled = false →
        saveMatchup true g d n .ok w1 w2 st = ⟨(), st, 1, 0⟩) ∧
    (∀ (sb : Bool) (st : St) (g : String) (d : CachedMatchup) (n : Int)
        (r : UpsertResp) (w1 w2 : Option String), (sb && !st.cloudDisabled) = false →
        1 ≤ (saveMatchup sb g d n r w1 w2 st).localWrites) ∧
    (∀ (st : St) (g : String) (d : CachedMatchup) (n : Int) (e : SbError)
        (w1 w2 : Option String), st.cloudDisabled = false →
        1 ≤ (saveMatchup true g d n (.err e) w1 w2 st).localWrites) ∧
    (∀ (st : St) (g : String) (d : CachedMatchup) (n : Int) (m : String)
        (w1 w2 : Option String), st.cloudDisabled = false →
        1 ≤ (saveMatchup true g d n (.thrown m) w1 w2 st).localWrites) := by
  refine ⟨?_, ?_, ?_, ?_⟩
  · intro st g d n w1 w2 h0
    simp [saveMatchup, h0]
  · intro sb st g d n r w1 w2 hskip
    simpa [saveMatchup, hskip] using saveMatchupLocal_writes g d n w1 w2 st 0
  · intro st g d n e w1 w2 h0
    simp only [saveMatchup, h0]
    simpa using saveMatchupLocal_writes g d n w1 w2 _ 1
  · intro st g d n m w1 w2 h0
    simp only [saveMatchup, h0]
    simpa using saveMatchupLocal_writes g d n w1 w2 _ 1

/-- Witness for C5 at a concrete input. -/
theorem C5_save_local_only_on_remote_miss_witness :
    saveMatchup true "g" ⟨none, [], "r"⟩ 7 .ok none none ⟨[], false⟩
      = ⟨(), ⟨[], false⟩, 1, 0⟩ :=
  C5_save_local_only_on_remote_miss.1 ⟨[], false⟩ "g" ⟨none, [], "r"⟩ 7 none none rfl

/-- Claim C6: when the first local `setItem` in `saveMatchup` throws a
quota-named error, the service evicts the `min 5 N` matchup-prefixed
entries of smallest recorded timestamp (stable order on ties;
unparsable entries recorded as timestamp 0), retries the write exactly
once (two attempts in total), and swallows a failure of the retry
instead of throwing. -/
theorem C6_quota_eviction (sb : Bool) (st : St) (g : String) (d : CachedMatchup)
    (n : Int) (r : UpsertResp) (w2 : Option String) (name : String)
    (hq : isQuotaName name = true)
    (hskip : (sb && !st.cloudDisabled) = false) :
    ((sortTs (pruneItems st.locals)).take 5).length = min 5 (pruneItems st.locals).length ∧
    (∀ a ∈ (sortTs (pruneItems st.locals)).take 5,
        ∀ b ∈ (sortTs (pruneItems st.locals)).drop 5, a.2 ≤ b.2) ∧
    pruneCache st.locals = st.locals.filter
        (fun p => ((sortTs (pruneItems st.locals)).take 5).all (fun it => !(p.1 == it.1))) ∧
    (saveMatchup sb g d n r (some name) w2 st).localWrites = 2 ∧
    (saveMatchup sb g d n r (some name) none st).st.locals
        = lsSet (pruneCache st.locals) (cachePre ++ g) (.matchupItem n d) ∧
    (∀ m2, (saveMatchup sb g d n r (some name) (some m2) st).st.locals
        = pruneCache st.locals) ∧
    (∀ s, pruneTs (.junk s) = 0) := by
  refine ⟨?_, ?_, ?_, ?_, ?_, ?_, ?_⟩
  · rw [List.length_take, sortTs_length]
  · exact sortTs_take_le_drop (pruneItems st.locals)
  · exact foldl_lsRemove_eq_filter ((sortTs (pruneItems st.locals)).take 5) st.locals
  · cases w2 <;> simp [saveMatchup, hskip, saveMatchupLocal, hq]
  · simp [saveMatchup, hskip, saveMatchupLocal, hq]
  · intro m2
    simp [saveMatchup, hskip, saveMatchupLocal, hq]
  · intro s
    rfl

/-- Witness for C6 at a concrete input. -/
theorem C6_quota_eviction_witness :
    (((sortTs (pruneItems [(cachePre ++ "a", .junk "oops")])).take 5).length
        = min 5 (pruneItems [(cachePre ++ "a", .junk "oops")]).length ∧
      (∀ a ∈ (sortTs (pruneItems [(cachePre ++ "a", .junk "oops")])).take 5,
          ∀ b ∈ (sortTs (pruneItems [(cachePre ++ "a", .junk "oops")])).drop 5, a.2 ≤ b.2) ∧
      pruneCache [(cachePre ++ "a", .junk "oops")]
          = List.filter
              (fun p => ((sortTs (pruneItems [(cachePre ++ "a", .junk "oops")])).take 5).all
                (fun it => !(p.1 == it.1)))
              [(cachePre ++ "a", .junk "oops")] ∧
      (saveMatchup false "g" ⟨none, [], "r"⟩ 9 .ok (some "QuotaExceededError") none
          ⟨[(cachePre ++ "a", .junk "oops")], false⟩).localWrites = 2 ∧
      (saveMatchup false "g" ⟨none, [], "r"⟩ 9 .ok (some "QuotaExceededError") none
          ⟨[(cachePre ++ "a", .junk "oops")], false⟩).st.locals
          = lsSet (pruneCache [(cachePre ++ "a", .junk "oops")]) (cachePre ++ "g")
              (.matchupItem 9 ⟨none, [], "r"⟩) ∧
      (∀ m2, (saveMatchup false "g" ⟨none, [], "r"⟩ 9 .ok (some "QuotaExceededError")
          (some m2) ⟨[(cachePre ++ "a", .junk "oops")], false⟩).st.locals
          = pruneCache [(cachePre ++ "a", .junk "oops")]) ∧
      (∀ s, pruneTs (.junk s) = 0)) :=
  C6_quota_eviction false ⟨[(cachePre ++ "a", .junk "oops")], false⟩ "g" ⟨none, [], "r"⟩
    9 .ok none "QuotaExceededError" rfl rfl

/-- Claim C7: `getCachedGameIds` returns, without duplicates, the union
of the local matchup-prefixed ids and (with the circuit closed and the
enumeration succeeding) the remote row ids, with no regard to entry
timestamps; a failed enumeration still yields the deduplicated
local-only set, opening the circuit exactly when the error message is
permission/connection-classified (and always on an exception). -/
theorem C7_listKeys_union :
    (∀ (st : St) (rows : List String), st.cloudDisabled = false →
        (∀ x, x ∈ (getCachedGameIds true (.ok rows) st).ret ↔
            x ∈ localMatchupIds st.locals ∨ x ∈ rows) ∧
        (getCachedGameIds true (.ok rows) st).ret.Nodup ∧
        (getCachedGameIds true (.ok rows) st).st = st) ∧
    (∀ (st : St) (e : SbError), st.cloudDisabled = false →
        (∀ x, x ∈ (getCachedGameIds true (.err e) st).ret ↔
            x ∈ localMatchupIds st.locals) ∧
        (getCachedGameIds true (.err e) st).ret.Nodup ∧
        (getCachedGameIds true (.err e) st).st.cloudDisabled = circuitPattern e.message) ∧
    (∀ (st : St) (m : String), st.cloudDisabled = false →
        (∀ x, x ∈ (getCachedGameIds true (.thrown m) st).ret ↔
            x ∈ localMatchupIds st.locals) ∧
        (getCachedGameIds true (.thrown m) st).ret.Nodup ∧
        (getCachedGameIds true (.thrown m) st).st.cloudDisabled = true) ∧
    (∀ (sb : Bool) (st : St) (r : SelectResp (List String)),
        (sb && !st.cloudDisabled) = false →
        (∀ x, x ∈ (getCachedGameIds sb r st).ret ↔ x ∈ localMatchupIds st.locals) ∧
        (getCachedGameIds sb r st).ret.Nodup ∧
        (getCachedGameIds sb r st).st = st ∧
        (getCachedGameIds sb r st).remoteCalls = 0) := by
  refine ⟨?_, ?_, ?_, ?_⟩
  · intro st rows h0
    refine ⟨?_, ?_, by simp [getCachedGameIds, h0]⟩
    · intro x
      simp [getCachedGameIds, h0, mem_foldl_addId]
    · simp only [getCachedGameIds, h0]
      exact nodup_foldl_addId rows _ (nodup_foldl_addId _ [] List.nodup_nil)
  · intro st e h0
    refine ⟨?_, ?_, ?_⟩
    · intro x
      simp [getCachedGameIds, h0, mem_foldl_addId]
    · simp only [getCachedGameIds, h0]
      exact nodup_foldl_addId _ [] List.nodup_nil
    · by_cases hpat : circuitPattern e.message = true <;>
        simp [getCachedGameIds, h0, hpat]
  · intro st m h0
    refine ⟨?_, ?_, by simp [getCachedGameIds, h0]⟩
    · intro x
      simp [getCachedGameIds, h0, mem_foldl_addId]
    · simp only [getCachedGameIds, h0]
      exact nodup_foldl_addId _ [] List.nodup_nil
  · intro sb st r hskip
    refine ⟨?_, ?_, by simp [getCachedGameIds, hskip], by simp [getCachedGameIds, hskip]⟩
    · intro x
      simp [getCachedGameIds, hskip, mem_foldl_addId]
    · simp only [getCachedGameIds, hskip]
      exact nodup_foldl_addId _ [] List.nodup_nil

/-- Witness for C7 at a concrete input: `g1` only local, `g2` only
remote, both in the result. -/
theorem C7_listKeys_union_witness :
    (∀ x, x ∈ (getCachedGameIds true (.ok ["g2"])
        ⟨[(cachePre ++ "g1", .matchupItem 0 ⟨none, [], ""⟩)], false⟩).ret ↔
        x ∈ localMatchupIds [(cachePre ++ "g1", .matchupItem 0 ⟨none, [], ""⟩)] ∨
          x ∈ ["g2"]) ∧
    (getCachedGameIds true (.ok ["g2"])
        ⟨[(cachePre ++ "g1", .matchupItem 0 ⟨none, [], ""⟩)], false⟩).ret.Nodup ∧
    (getCachedGameIds true (.ok ["g2"])
        ⟨[(cachePre ++ "g1", .matchupItem 0 ⟨none, [], ""⟩)], false⟩).st
      = ⟨[(cachePre ++ "g1", .matchupItem 0 ⟨none, [], ""⟩)], false⟩ :=
  C7_listKeys_union.1 ⟨[(cachePre ++ "g1", .matchupItem 0 ⟨none, [], ""⟩)], false⟩
    ["g2"] rfl

/-- Counterexample to claim C8 as stated: with no local entries, a
closed circuit and a remote enumeration of two rows, `getCacheStats`
reports `totalGames = 2`, not the local distinct-key count 0 — the code
takes the maximum of the two counts instead of the local count. -/
theorem C8_stats_counterexample :
    ¬ ((getCacheStats true (.ok ["a", "b"]) ⟨[], false⟩).ret.totalGames
        = (localMatchupIds ([] : LocalTier)).length) := by
  decide

/-- Claim C8 (amended): `getCacheStats` never throws and mutates
nothing; it reports `totalGames` as the MAXIMUM of the deduplicated
local matchup-key count and the remote-derived count, where the
remote-derived count degrades to 0 when the circuit is open or
unconfigured or the remote query fails (error, exception, or null
data) — so in all of those degraded cases `totalGames` is exactly the
local distinct-key count; `localStorageSize` is the summed serialized
string length of the matchup-prefixed local entries. -/
theorem C8_stats_amended :
    (∀ (sb : Bool) (st : St) (r : SelectResp (List String)),
        (sb && !st.cloudDisabled) = false →
        (getCacheStats sb r st).ret.totalGames
          = ((localMatchupIds st.locals).foldl addId []).length) ∧
    (∀ (st : St) (e : SbError), st.cloudDisabled = false →
        (getCacheStats true (.err e) st).ret.totalGames
          = ((localMatchupIds st.locals).foldl addId []).length) ∧
    (∀ (st : St) (m : String), st.cloudDisabled = false →
        (getCacheStats true (.thrown m) st).ret.totalGames
          = ((localMatchupIds st.locals).foldl addId []).length) ∧
    (∀ st : St, st.cloudDisabled = false →
        (getCacheStats true .okNone st).ret.totalGames
          = ((localMatchupIds st.locals).foldl addId []).length) ∧
    (∀ (st : St) (rows : List String), st.cloudDisabled = false →
        (getCacheStats true (.ok rows) st).ret.totalGames
          = max ((localMatchupIds st.locals).foldl addId []).length rows.length) ∧
    (∀ (sb : Bool) (st : St) (r : SelectResp (List String)),
        (getCacheStats sb r st).ret.localStorageSize = localMatchupSize st.locals ∧
        (getCacheStats sb r st).ret.totalSchedules = localScheduleCount st.locals ∧
        (getCacheStats sb r st).ret.isCloudConnected = (sb && !st.cloudDisabled) ∧
        (getCacheStats sb r st).st = st ∧
        ((localMatchupIds st.locals).foldl addId []).Nodup) := by
  refine ⟨?_, ?_, ?_, ?_, ?_, ?_⟩
  · intro sb st r hskip
    simp [getCacheStats, hskip]
  · intro st e h0
    simp [getCacheStats, h0]
  · intro st m h0
    simp [getCacheStats, h0]
  · intro st h0
    simp [getCacheStats, h0]
  · intro st rows h0
    simp [getCacheStats, h0]
  · intro sb st r
    exact ⟨rfl, rfl, rfl, rfl, nodup_foldl_addId _ [] List.nodup_nil⟩

/-- Witness for the amended C8 at a concrete input. -/
theorem C8_stats_amended_witness :
    (getCacheStats true (.ok ["a", "b"]) ⟨[], false⟩).ret.totalGames
      = max ((localMatchupIds ([] : LocalTier)).foldl addId []).length
          (["a", "b"] : List String).length :=
  C8_stats_amended.2.2.2.2.1 ⟨[], false⟩ ["a", "b"] rfl

theorem getMatchupLocal_frame (g : String) (t : Int) (st : St) (rc : Nat) :
    (getMatchupLocal g t st rc).st.locals = st.locals ∨
    ((getMatchupLocal g t st rc).st.locals = lsRemove st.locals (cachePre ++ g) ∧
      ∃ v tp, lsGet st.locals (cachePre ++ g) = some v ∧ parseMatchupItem v = some tp ∧
        ¬(t - tp.1 < CACHE_EXPIRY_MS)) := by
  cases hl : lsGet st.locals (cachePre ++ g) with
  | none => left; simp [getMatchupLocal, hl]
  | some v =>
      cases hp : parseMatchupItem v with
      | none => left; simp [getMatchupLocal, hl, hp]
      | some tp =>
          obtain ⟨T, pl⟩ := tp
          by_cases hf : t - T < CACHE_EXPIRY_MS
          · left; simp [getMatchupLocal, hl, hp, hf]
          · right
            exact ⟨by simp [getMatchupLocal, hl, hp, hf], v, (T, pl), rfl, hp, hf⟩

theorem getMatchup_to_local (sb : Bool) (g : String) (t : Int)
    (r : SelectResp MatchupRow) (st : St) :
    (getMatchup sb g t r st).st.locals = st.locals ∨
    ∃ b rc, getMatchup sb g t r st = getMatchupLocal g t ⟨st.locals, b⟩ rc := by
  cases hsb : (sb && !st.cloudDisabled) with
  | false => right; exact ⟨st.cloudDisabled, 0, by simp [getMatchup, hsb]⟩
  | true =>
      cases r with
      | ok row =>
          by_cases hf : t - row.timestamp < CACHE_EXPIRY_MS
          · left; simp [getMatchup, hsb, hf]
          · right; exact ⟨st.cloudDisabled, 1, by simp [getMatchup, hsb, hf]⟩
      | okNone => right; exact ⟨st.cloudDisabled, 1, by simp [getMatchup, hsb]⟩
      | err e =>
          by_cases hcode : (e.code == "PGRST116") = true
          · right; exact ⟨st.cloudDisabled, 1, by simp [getMatchup, hsb, hcode]⟩
          · by_cases hpat : circuitPattern e.message = true
            · right; exact ⟨true, 1, by simp [getMatchup, hsb, hcode, hpat]⟩
            · right; exact ⟨st.cloudDisabled, 1, by simp [getMatchup, hsb, hcode, hpat]⟩
      | thrown m => right; exact ⟨true, 1, by simp [getMatchup, hsb]⟩

/-- Claim C9: `getMatchup` never adds or overwrites a localStorage
entry — its only possible mutation of the local tier is removing the
queried key, and that happens only when the stored entry parses and
fails the freshness test; an unparsable entry yields null and is left
in place (eviction later records it as timestamp 0), and a fresh remote
hit leaves the local tier untouched. -/
theorem C9_getMatchup_local_frame :
    (∀ (sb : Bool) (st : St) (g : String) (t : Int) (r : SelectResp MatchupRow),
        (getMatchup sb g t r st).st.locals = st.locals ∨
        ((getMatchup sb g t r st).st.locals = lsRemove st.locals (cachePre ++ g) ∧
          ∃ v tp, lsGet st.locals (cachePre ++ g) = some v ∧
            parseMatchupItem v = some tp ∧ ¬(t - tp.1 < CACHE_EXPIRY_MS))) ∧
    (∀ (sb : Bool) (st : St) (g : String) (t : Int) (r : SelectResp MatchupRow)
        (s : String), (sb && !st.cloudDisabled) = false →
        lsGet st.locals (cachePre ++ g) = some (.junk s) →
        (getMatchup sb g t r st).ret = none ∧ (getMatchup sb g t r st).st = st) ∧
    (∀ s : String, pruneTs (.junk s) = 0 ∧ parseMatchupItem (.junk s) = none) ∧
    (∀ (st : St) (g : String) (t : Int) (row : MatchupRow), st.cloudDisabled = false →
        t - row.timestamp < CACHE_EXPIRY_MS →
        (getMatchup true g t (.ok row) st).st.locals = st.locals) := by
  refine ⟨?_, ?_, ?_, ?_⟩
  · intro sb st g t r
    rcases getMatchup_to_local sb g t r st with h | ⟨b, rc, heq⟩
    · left; exact h
    · rw [heq]
      exact getMatchupLocal_frame g t ⟨st.locals, b⟩ rc
  · intro sb st g t r s hskip hl
    constructor <;> simp [getMatchup, hskip, getMatchupLocal, hl, parseMatchupItem]
  · intro s
    exact ⟨rfl, rfl⟩
  · intro st g t row h0 hf
    simp [getMatchup, h0, hf]

/-- Witness for C9 at a concrete input: an unparsable local entry is
reported absent and left in place. -/
theorem C9_getMatchup_local_frame_witness :
    (getMatchup false "g" 3 .okNone ⟨[(cachePre ++ "g", .junk "not json")], true⟩).ret
      = none ∧
    (getMatchup false "g" 3 .okNone ⟨[(cachePre ++ "g", .junk "not json")], true⟩).st
      = ⟨[(cachePre ++ "g", .junk "not json")], true⟩ :=
  C9_getMatchup_local_frame.2.1 false ⟨[(cachePre ++ "g", .junk "not json")], true⟩
    "g" 3 .okNone "not json" rfl (by simp [lsGet])

/-- Claim C10: `saveSchedule` writes the schedule entry through to
localStorage even when the remote upsert succeeded; when that local
write throws (quota included), the failure is only logged — the local
tier is left untouched, no eviction runs, there is exactly one write
attempt, and nothing propagates. -/
theorem C10_saveSchedule_writethrough :
    (∀ (st : St) (w : String) (g : List Json) (n : Int), st.cloudDisabled = false →
        saveSchedule true w g n .ok none st
          = ⟨(), ⟨lsSet st.locals (schedulePre ++ w) (.schedItem w g n), false⟩, 1, 1⟩) ∧
    (∀ (sb : Bool) (st : St) (w : String) (g : List Json) (n : Int)
        (r : UpsertResp) (name : String),
        (saveSchedule sb w g n r (some name) st).st.locals = st.locals ∧
        (saveSchedule sb w g n r (some name) st).localWrites = 1) ∧
    (∀ (sb : Bool) (st : St) (w : String) (g : List Json) (n : Int)
        (r : UpsertResp) (wr : Option String),
        (saveSchedule sb w g n r wr st).localWrites = 1) := by
  refine ⟨?_, ?_, ?_⟩
  · intro st w g n h0
    simp only [saveSchedule, h0]
    rcases st with ⟨locals, cd⟩
    simp_all
  · intro sb st w g n r name
    cases hsb : (sb && !st.cloudDisabled) <;> cases r <;>
      constructor <;> simp [saveSchedule, hsb, apply_ite]
  · intro sb st w g n r wr
    cases wr <;> cases hsb : (sb && !st.cloudDisabled) <;> cases r <;>
      simp [saveSchedule, hsb]

/-- Witness for C10 at a concrete input. -/
theorem C10_saveSchedule_writethrough_witness :
    saveSchedule true "w1" [] 5 .ok none ⟨[], false⟩
      = ⟨(), ⟨lsSet [] (schedulePre ++ "w1") (.schedItem "w1" [] 5), false⟩, 1, 1⟩ :=
  C10_saveSchedule_writethrough.1 ⟨[], false⟩ "w1" [] 5 rfl
